import Mathlib

/-!
Verification of the request/response adaptation layer of a GitHub MCP server.

The repository exposes GitHub tools over an MCP transport in several parallel
entry points:
  - src/src/app/mcp/route.ts and the MCP route embedded in src/src/app/layout.tsx
    (the createMcpHandler variants; tool handlers throw on remote failure and the
    surrounding RPC layer converts the exception into an error result) - modelled
    here under the Mcp namespace;
  - src/src/index.ts (the streamable-HTTP variant whose makeGitHubRequest returns
    a tagged data-or-error record) - modelled under the IndexTs namespace.

Remote HTTP exchanges are modelled by FetchOutcome: a handler is a pure function
from its validated arguments and the outcome of its remote call(s) to the
ToolResult it hands back to the transport.  Argument defaulting performed by the
zod schemas is modelled with Option arguments resolved exactly as zod does.
-/

/- ========================================================================
   String utilities mirroring the JavaScript string operations used by the
   source (String.prototype.includes, startsWith, template literals).
   ======================================================================== -/

/-- Substring occurrence on character lists: true when pat occurs contiguously
in hay.  Mirrors JavaScript String.prototype.includes. -/
def lcontains : List Char → List Char → Bool
  | [], pat => pat.isEmpty
  | h :: t, pat => pat.isPrefixOf (h :: t) || lcontains t pat

/-- JavaScript s.includes(pat). -/
def hasSubstr (s pat : String) : Bool :=
  lcontains s.data pat.data

/-- JavaScript s.startsWith(p). -/
def strStartsWith (s p : String) : Bool :=
  p.data.isPrefixOf s.data

theorem prefixOf_self (l : List Char) : l.isPrefixOf l = true := by
  induction l with
  | nil => rfl
  | cons h t ih => simp [List.isPrefixOf, ih]

theorem prefixOf_append_right (p a b : List Char) (h : p.isPrefixOf a = true) :
    p.isPrefixOf (a ++ b) = true := by
  induction p generalizing a with
  | nil => simp [List.isPrefixOf]
  | cons c p' ih =>
    cases a with
    | nil => simp [List.isPrefixOf] at h
    | cons d a' =>
      simp only [List.cons_append, List.isPrefixOf, Bool.and_eq_true] at h ⊢
      exact ⟨h.1, ih a' h.2⟩

theorem data_append (a b : String) : (a ++ b).data = a.data ++ b.data := by
  cases a
  cases b
  rfl

theorem lcontains_nilpat (hay : List Char) : lcontains hay [] = true := by
  cases hay <;> simp [lcontains, List.isPrefixOf]

theorem lcontains_append_left (a b p : List Char) (h : lcontains a p = true) :
    lcontains (a ++ b) p = true := by
  induction a with
  | nil =>
    simp only [lcontains, List.isEmpty_iff] at h
    subst h
    exact lcontains_nilpat b
  | cons c a' ih =>
    simp only [List.cons_append, lcontains, Bool.or_eq_true] at h ⊢
    rcases h with h | h
    · left
      have := prefixOf_append_right p (c :: a') b h
      simpa using this
    · right
      exact ih h

theorem lcontains_append_right (a b p : List Char) (h : lcontains b p = true) :
    lcontains (a ++ b) p = true := by
  induction a with
  | nil => simpa using h
  | cons c a' ih =>
    simp only [List.cons_append, lcontains, Bool.or_eq_true]
    right
    exact ih

theorem lcontains_self (p : List Char) : lcontains p p = true := by
  cases p with
  | nil => rfl
  | cons c t =>
    simp only [lcontains, Bool.or_eq_true]
    left
    exact prefixOf_self _

theorem hasSubstr_append_left (a b p : String) (h : hasSubstr a p = true) :
    hasSubstr (a ++ b) p = true := by
  unfold hasSubstr at *
  rw [data_append]
  exact lcontains_append_left _ _ _ h

theorem hasSubstr_append_right (a b p : String) (h : hasSubstr b p = true) :
    hasSubstr (a ++ b) p = true := by
  unfold hasSubstr at *
  rw [data_append]
  exact lcontains_append_right _ _ _ h

theorem hasSubstr_self (p : String) : hasSubstr p p = true := by
  unfold hasSubstr
  exact lcontains_self _

/-- A pattern standing as a whole segment of a left-associated append chain is
found by hasSubstr. -/
theorem hasSubstr_middle (a p b : String) : hasSubstr (a ++ p ++ b) p = true := by
  apply hasSubstr_append_left
  apply hasSubstr_append_right
  exact hasSubstr_self p

theorem strStartsWith_append_self (p b : String) : strStartsWith (p ++ b) p = true := by
  unfold strStartsWith
  rw [data_append]
  exact prefixOf_append_right _ _ _ (prefixOf_self _)

theorem strStartsWith_extend (a c p : String) (h : strStartsWith a p = true) :
    strStartsWith (a ++ c) p = true := by
  unfold strStartsWith at *
  rw [data_append]
  exact prefixOf_append_right _ _ _ h

theorem strStartsWith_self (s : String) : strStartsWith s s = true := by
  unfold strStartsWith
  exact prefixOf_self _

theorem prefixOf_sep (p : List Char) (sep : Char) (hsep : sep ∉ p) :
    ∀ (x y : List Char), p.isPrefixOf (x ++ sep :: y) = true → p.isPrefixOf x = true := by
  induction p with
  | nil => intro x y _; simp [List.isPrefixOf]
  | cons c p' ih =>
    intro x y h
    cases x with
    | nil =>
      simp only [List.nil_append, List.isPrefixOf, Bool.and_eq_true, beq_iff_eq] at h
      exact absurd (show sep ∈ c :: p' by rw [← h.1]; exact List.mem_cons_self c p') hsep
    | cons d x' =>
      simp only [List.cons_append, List.isPrefixOf, Bool.and_eq_true] at h ⊢
      refine ⟨h.1, ?_⟩
      exact ih (fun hm => hsep (List.mem_cons_of_mem _ hm)) x' y h.2

theorem lcontains_sep_elim (p : List Char) (sep : Char) (hp : p ≠ []) (hsep : sep ∉ p) :
    ∀ (x y : List Char), lcontains (x ++ sep :: y) p = true →
      lcontains x p = true ∨ lcontains y p = true := by
  intro x
  induction x with
  | nil =>
    intro y h
    simp only [List.nil_append, lcontains, Bool.or_eq_true] at h
    rcases h with h | h
    · cases p with
      | nil => exact absurd rfl hp
      | cons c p' =>
        simp only [List.isPrefixOf, Bool.and_eq_true, beq_iff_eq] at h
        exact absurd (show sep ∈ c :: p' by rw [← h.1]; exact List.mem_cons_self c p') hsep
    · right; exact h
  | cons d x' ih =>
    intro y h
    simp only [List.cons_append, lcontains, Bool.or_eq_true] at h
    rcases h with h | h
    · left
      have hpre : p.isPrefixOf ((d :: x') ++ sep :: y) = true := by simpa using h
      have := prefixOf_sep p sep hsep (d :: x') y hpre
      simp only [lcontains, Bool.or_eq_true]
      left
      exact this
    · rcases ih y h with h' | h'
      · left
        simp only [lcontains, Bool.or_eq_true]
        right
        exact h'
      · right
        exact h'

theorem lcontains_sep_split_false (p : List Char) (sep : Char) (x y : List Char)
    (hp : p ≠ []) (hsep : sep ∉ p)
    (hx : lcontains x p = false) (hy : lcontains y p = false) :
    lcontains (x ++ sep :: y) p = false := by
  by_contra hcon
  rw [Bool.not_eq_false] at hcon
  rcases lcontains_sep_elim p sep hp hsep x y hcon with h | h
  · rw [hx] at h; exact Bool.false_ne_true h
  · rw [hy] at h; exact Bool.false_ne_true h

/- ========================================================================
   JavaScript value helpers used by the handlers (truthiness, template
   literal coercion, defaulting via the logical-or operator).
   ======================================================================== -/

/-- JavaScript value-or-default via the logical-or operator on a possibly
absent string: a string is falsy exactly when it is empty. -/
def jsOrStr (v : Option String) (dflt : String) : String :=
  match v with
  | some s => if s = "" then dflt else s
  | none => dflt

/-- JavaScript value-or-default on a present string (s or dflt). -/
def jsOrEmpty (s dflt : String) : String :=
  if s = "" then dflt else s

/-- JavaScript conditional template fragment: v is rendered through f when
truthy, and produces the empty string otherwise. -/
def jsCond (v : Option String) (f : String → String) : String :=
  match v with
  | some s => if s = "" then "" else f s
  | none => ""

/-- JavaScript a-or-b on possibly absent strings (a or b with string
truthiness on a). -/
def jsOrOpt (a b : Option String) : Option String :=
  match a with
  | some s => if s = "" then b else some s
  | none => b

/-- JavaScript template-literal coercion of a possibly absent string: the
undefined value renders as the six characters of the word undefined. -/
def jsTemplateOpt : Option String → String
  | some s => s
  | none => "undefined"

/-- JavaScript template-literal coercion of a boolean-or-null field. -/
def jsShowNullableBool : Option Bool → String
  | some true => "true"
  | some false => "false"
  | none => "null"

/-- JavaScript Array.prototype.join. -/
def joinSep (sep : String) : List String → String
  | [] => ""
  | [x] => x
  | x :: y :: xs => x ++ sep ++ joinSep sep (y :: xs)

/-- JavaScript Array.prototype.join with a newline separator, as used by the
list-rendering handlers. -/
def joinLines (xs : List String) : String :=
  joinSep "\n" xs

/-- Hex digit (uppercase) for percent-encoding. -/
def hexDigitChar (n : Nat) : Char :=
  if n < 10 then Char.ofNat (48 + n) else Char.ofNat (55 + n)

/-- UTF-8 bytes of a code point, as used by percent-encoding. -/
def utf8BytesOfCodepoint (n : Nat) : List Nat :=
  if n < 128 then [n]
  else if n < 2048 then [192 + n / 64, 128 + n % 64]
  else if n < 65536 then [224 + n / 4096, 128 + (n / 64) % 64, 128 + n % 64]
  else [240 + n / 262144, 128 + (n / 4096) % 64, 128 + (n / 64) % 64, 128 + n % 64]

/-- Characters left unescaped by the ECMAScript encodeURIComponent builtin:
alphanumerics and the marks - _ . ! ~ * quote ( ). -/
def isURIUnreserved (c : Char) : Bool :=
  let n := c.toNat
  (Nat.ble 48 n && Nat.ble n 57) || (Nat.ble 65 n && Nat.ble n 90) ||
    (Nat.ble 97 n && Nat.ble n 122) ||
    ([33, 39, 40, 41, 42, 45, 46, 95, 126].contains n)

/-- Percent-escape of one byte (37 is the percent sign). -/
def percentEncodeByte (b : Nat) : List Char :=
  [Char.ofNat 37, hexDigitChar (b / 16), hexDigitChar (b % 16)]

/-- The ECMAScript encodeURIComponent builtin, used by the handlers when
embedding user-supplied values in query strings. -/
def encodeURIComponent (s : String) : String :=
  String.mk ((s.data.map (fun c =>
    if isURIUnreserved c then [c]
    else ((utf8BytesOfCodepoint c.toNat).map percentEncodeByte).flatten)).flatten)

/- ========================================================================
   Shared remote-call model.
   ======================================================================== -/

/-- Fixed base origin of the remote API (all variants). -/
def GITHUB_API_BASE : String := "https://api.github.com"

/-- Fixed client-identifier header value (all variants). -/
def USER_AGENT : String := "GitHub-MCP-Server/1.0.0"

/-- Versioned JSON media type requested on every call (all variants). -/
def ACCEPT_HEADER : String := "application/vnd.github.v3+json"

/-- The outcome of one remote HTTP exchange, as observed at a
makeGitHubRequest call site: a parsed 2xx payload, a non-2xx response with
its status, status text and body text, or a transport failure (including a
malformed payload on an otherwise successful response). -/
inductive FetchOutcome (α : Type) where
  | ok (payload : α)
  | httpError (status : Nat) (statusText : String) (body : String)
  | networkError (message : String)

/-- The headers attached to one outbound request. -/
structure RequestHeaders where
  userAgent : String
  accept : String
  authorization : Option String
  contentType : Option String
deriving DecidableEq

/-- Authorization header attached when the credential is truthy
(present and non-empty), as done by every makeGitHubRequest variant. -/
def ghAuthorization : Option String → Option String
  | some t => if t = "" then none else some ("token " ++ t)
  | none => none

/-- The single text block a handler returns to the transport; a missing
isError field on the source result object is the false value here. -/
structure ToolResult where
  text : String
  isError : Bool
deriving DecidableEq

/- ========================================================================
   The createMcpHandler variants (src/src/app/mcp/route.ts and the MCP route
   embedded in src/src/app/layout.tsx).  Their makeGitHubRequest throws an
   Error with message GitHub API error: status statusText on any non-2xx
   response; handlers either catch it (the three not-found-aware tools) or
   let it propagate to the RPC layer.
   ======================================================================== -/

/-- Headers built by the Mcp-variant makeGitHubRequest (route.ts lines 14-21,
layout.tsx equivalent): fixed user-agent and accept, authorization only for a
truthy token. -/
def Mcp.requestHeaders (githubToken : Option String) : RequestHeaders :=
  { userAgent := USER_AGENT
    accept := ACCEPT_HEADER
    authorization := ghAuthorization githubToken
    contentType := none }

/-- The absolute URL built by makeGitHubRequest. -/
def Mcp.requestUrl (endpoint : String) : String :=
  GITHUB_API_BASE ++ endpoint

/-- Response processing of the Mcp-variant makeGitHubRequest (route.ts lines
23-29): a non-ok response raises an Error whose message carries the status
and status text (the body is never read); a fetch rejection propagates as
its own message; a 2xx payload is returned. -/
def Mcp.makeGitHubRequest {α : Type} (outcome : FetchOutcome α) : Except String α :=
  match outcome with
  | .ok a => .ok a
  | .httpError st stText _ => .error ("GitHub API error: " ++ toString st ++ " " ++ stText)
  | .networkError m => .error m

/-- Modelled from the spec: the tool-invocation layer around the handlers
(the external createMcpHandler collaborator) returns a handler result as-is
and converts an uncaught handler exception into a result with isError true
whose text is the exception message (spec section 7: remote failures
propagate to the caller as the rendered error text, surfaced as an error). -/
def Mcp.wrapTool : Except String ToolResult → ToolResult
  | .ok r => r
  | .error msg => { text := msg, isError := true }

/-- Request-scoped credential extraction (route.ts line 36, layout.tsx line
56): the X-GITHUB-TOKEN header value, with null and the empty string both
collapsing to undefined. -/
def Mcp.headerToken (headerValue : Option String) : Option String :=
  match headerValue with
  | some s => if s = "" then none else some s
  | none => none

/-- Per-call credential resolution (route.ts line 48 and every other handler
of these variants): the request-scoped token, or the process-wide
GITHUB_PAT_FOR_PROJECT fallback via the JavaScript logical-or. -/
def Mcp.tokenForRequest (headerValue envFallback : Option String) : Option String :=
  jsOrOpt (Mcp.headerToken headerValue) envFallback

/-- Authorization header value actually attached by makeGitHubRequest after
credential resolution. -/
def Mcp.outboundAuthorization (headerValue envFallback : Option String) : Option String :=
  ghAuthorization (Mcp.tokenForRequest headerValue envFallback)

/- Payload shapes consumed by the Mcp-variant renderers (fields are the JSON
fields each renderer reads; nested objects such as user.login are flattened
into single fields). -/

structure RepositoryInfo where
  full_name : String
  description : Option String
  stargazers_count : Int
  forks_count : Int
  language : Option String
  open_issues_count : Int
  created_at : String
  updated_at : String
  clone_url : String
  homepage : Option String
deriving DecidableEq

structure IssueSummary where
  number : Int
  title : String
  state : String
  html_url : String
deriving DecidableEq

structure PullRequestInfo where
  number : Int
  title : String
  state : String
  user_login : String
  created_at : String
  updated_at : String
  mergeable : Option Bool
  additions : Int
  deletions : Int
  changed_files : Int
  html_url : String
  body : Option String
deriving DecidableEq

structure SearchRepoItem where
  full_name : String
  stargazers_count : Int
  description : Option String
  html_url : String
deriving DecidableEq

structure SearchResultsPayload where
  total_count : Int
  items : List SearchRepoItem
deriving DecidableEq

structure UserInfo where
  login : String
  name : Option String
  bio : Option String
  company : Option String
  location : Option String
  public_repos : Int
  followers : Int
  following : Int
  created_at : String
  html_url : String
deriving DecidableEq

structure ParentIssuePayload where
  number : Int
  title : String
  state : String
  user_login : String
  created_at : String
  updated_at : String
  html_url : String
  body : Option String
deriving DecidableEq

structure SubIssueItem where
  number : Int
  title : String
  state : String
  html_url : String
deriving DecidableEq

structure IssueIdPayload where
  id : Int
deriving DecidableEq

/- Endpoint construction (paths handed to makeGitHubRequest). -/

def Mcp.getRepositoryInfoEndpoint (owner repo : String) : String :=
  "/repos/" ++ owner ++ "/" ++ repo

def Mcp.listRepositoryIssuesEndpoint (owner repo state : String) : String :=
  "/repos/" ++ owner ++ "/" ++ repo ++ "/issues?state=" ++ state ++ "&per_page=10"

def Mcp.getPullRequestEndpoint (owner repo : String) (pull_number : Int) : String :=
  "/repos/" ++ owner ++ "/" ++ repo ++ "/pulls/" ++ toString pull_number

/-- search_repositories endpoint (route.ts lines 143-145; the same
construction appears verbatim in the plain JSON-RPC route of
src/unnamed/part_000 lines 195-197).  The sort argument has no zod default;
order defaults to desc; each is appended only when truthy. -/
def Mcp.searchRepositoriesEndpoint (query : String) (sort order : Option String) : String :=
  let orderV := order.getD "desc"
  "/search/repositories?q=" ++ encodeURIComponent query ++ "&per_page=10"
    ++ (match sort with
        | some s => if s = "" then "" else "&sort=" ++ s
        | none => "")
    ++ (if orderV = "" then "" else "&order=" ++ orderV)

def Mcp.getUserInfoEndpoint (username : String) : String :=
  "/users/" ++ username

def Mcp.getParentOfSubIssueEndpoint (owner repo : String) (issue_number : Int) : String :=
  "/repos/" ++ owner ++ "/" ++ repo ++ "/issues/" ++ toString issue_number ++ "/parent"

/-- list_sub_issues endpoint (layout.tsx lines 156-163): per_page and page
are the zod-defaulted values (30 and 1); state and labels are appended only
when truthy, labels percent-encoded. -/
def Mcp.listSubIssuesEndpoint (owner repo : String) (issue_number per_page page : Int)
    (state labels : Option String) : String :=
  "/repos/" ++ owner ++ "/" ++ repo ++ "/issues/" ++ toString issue_number
    ++ "/sub_issues?per_page=" ++ toString per_page ++ "&page=" ++ toString page
    ++ (match state with
        | some s => if s = "" then "" else "&state=" ++ s
        | none => "")
    ++ (match labels with
        | some l => if l = "" then "" else "&labels=" ++ encodeURIComponent l
        | none => "")

def Mcp.getIdOfIssueEndpoint (owner repo : String) (issue_number : Int) : String :=
  "/repos/" ++ owner ++ "/" ++ repo ++ "/issues/" ++ toString issue_number

/- Renderers (success-path text of each handler). -/

def Mcp.renderRepositoryInfo (c : RepositoryInfo) : String :=
  "Repository: " ++ c.full_name
    ++ "\nDescription: " ++ jsOrStr c.description "No description"
    ++ "\nStars: " ++ toString c.stargazers_count
    ++ "\nForks: " ++ toString c.forks_count
    ++ "\nLanguage: " ++ jsOrStr c.language "Not specified"
    ++ "\nOpen Issues: " ++ toString c.open_issues_count
    ++ "\nCreated: " ++ c.created_at
    ++ "\nUpdated: " ++ c.updated_at
    ++ "\nClone URL: " ++ c.clone_url
    ++ "\nHomepage: " ++ jsOrStr c.homepage "None"

def Mcp.issueLine (issue : IssueSummary) : String :=
  "#" ++ toString issue.number ++ ": " ++ issue.title ++ " (" ++ issue.state ++ ") - "
    ++ issue.html_url

def Mcp.renderPullRequest (c : PullRequestInfo) : String :=
  "Pull Request #" ++ toString c.number ++ ": " ++ c.title
    ++ "\nState: " ++ c.state
    ++ "\nAuthor: " ++ c.user_login
    ++ "\nCreated: " ++ c.created_at
    ++ "\nUpdated: " ++ c.updated_at
    ++ "\nMergeable: " ++ jsShowNullableBool c.mergeable
    ++ "\nAdditions: " ++ toString c.additions
    ++ "\nDeletions: " ++ toString c.deletions
    ++ "\nChanged Files: " ++ toString c.changed_files
    ++ "\nURL: " ++ c.html_url
    ++ "\n\nDescription:\n" ++ jsOrStr c.body "No description"

def Mcp.searchRepoLine (r : SearchRepoItem) : String :=
  r.full_name ++ " (⭐" ++ toString r.stargazers_count ++ ") - "
    ++ jsOrStr r.description "No description" ++ " - " ++ r.html_url

def Mcp.renderUserInfo (c : UserInfo) : String :=
  "User: " ++ c.login
    ++ "\nName: " ++ jsOrStr c.name "Not specified"
    ++ "\nBio: " ++ jsOrStr c.bio "No bio"
    ++ "\nCompany: " ++ jsOrStr c.company "Not specified"
    ++ "\nLocation: " ++ jsOrStr c.location "Not specified"
    ++ "\nPublic Repos: " ++ toString c.public_repos
    ++ "\nFollowers: " ++ toString c.followers
    ++ "\nFollowing: " ++ toString c.following
    ++ "\nCreated: " ++ c.created_at
    ++ "\nProfile: " ++ c.html_url

def Mcp.renderParentIssue (issue_number : Int) (c : ParentIssuePayload) : String :=
  "Parent Issue for #" ++ toString issue_number ++ ":"
    ++ "\nIssue #" ++ toString c.number ++ ": " ++ c.title
    ++ "\nState: " ++ c.state
    ++ "\nAuthor: " ++ c.user_login
    ++ "\nCreated: " ++ c.created_at
    ++ "\nUpdated: " ++ c.updated_at
    ++ "\nURL: " ++ c.html_url
    ++ "\n\nDescription:\n" ++ jsOrStr c.body "No description"

def Mcp.subIssueLine (issue : SubIssueItem) : String :=
  "#" ++ toString issue.number ++ ": " ++ issue.title ++ " (" ++ issue.state ++ ") - "
    ++ issue.html_url

/- Tool handlers: response processing from the remote outcome to the result
returned to the transport (after RPC-layer wrapping of thrown errors). -/

/-- get_repository_info (route.ts lines 40-69): no error handling of its own;
a thrown request error propagates to the RPC layer. -/
def Mcp.get_repository_info (outcome : FetchOutcome RepositoryInfo) : ToolResult :=
  Mcp.wrapTool (match Mcp.makeGitHubRequest outcome with
    | .ok content => .ok { text := Mcp.renderRepositoryInfo content, isError := false }
    | .error e => .error e)

/-- list_repository_issues (route.ts lines 71-96): maps the returned array
into lines with no empty-list check; a thrown request error propagates. -/
def Mcp.list_repository_issues (owner repo state : String)
    (outcome : FetchOutcome (List IssueSummary)) : ToolResult :=
  Mcp.wrapTool (match Mcp.makeGitHubRequest outcome with
    | .ok content =>
        .ok { text := "Issues for " ++ owner ++ "/" ++ repo ++ " (" ++ state ++ "):\n\n"
                        ++ joinLines (content.map Mcp.issueLine)
              isError := false }
    | .error e => .error e)

/-- get_pull_request (route.ts lines 98-131). -/
def Mcp.get_pull_request (outcome : FetchOutcome PullRequestInfo) : ToolResult :=
  Mcp.wrapTool (match Mcp.makeGitHubRequest outcome with
    | .ok content => .ok { text := Mcp.renderPullRequest content, isError := false }
    | .error e => .error e)

/-- search_repositories (route.ts lines 133-162). -/
def Mcp.search_repositories (query : String)
    (outcome : FetchOutcome SearchResultsPayload) : ToolResult :=
  Mcp.wrapTool (match Mcp.makeGitHubRequest outcome with
    | .ok content =>
        .ok { text := "Search results for \"" ++ query ++ "\" ("
                        ++ toString content.total_count ++ " total):\n\n"
                        ++ joinLines (content.items.map Mcp.searchRepoLine)
              isError := false }
    | .error e => .error e)

/-- get_user_info (route.ts lines 164-192). -/
def Mcp.get_user_info (outcome : FetchOutcome UserInfo) : ToolResult :=
  Mcp.wrapTool (match Mcp.makeGitHubRequest outcome with
    | .ok content => .ok { text := Mcp.renderUserInfo content, isError := false }
    | .error e => .error e)

/-- get_parent_of_sub_issue (layout.tsx lines 60-112, identical in route.ts
lines 194-239): a caught request error whose message contains the three
characters 404 yields a soft informational result; any other caught error is
rethrown to the RPC layer. -/
def Mcp.get_parent_of_sub_issue (owner repo : String) (issue_number : Int)
    (outcome : FetchOutcome ParentIssuePayload) : ToolResult :=
  Mcp.wrapTool (match Mcp.makeGitHubRequest outcome with
    | .ok content => .ok { text := Mcp.renderParentIssue issue_number content, isError := false }
    | .error msg =>
        if hasSubstr msg "404" then
          .ok { text := "Issue #" ++ toString issue_number ++ " in " ++ owner ++ "/" ++ repo
                          ++ " does not have a parent issue or does not exist."
                isError := false }
        else .error msg)

/-- list_sub_issues (layout.tsx lines 114-210): per_page and page are the
zod-defaulted values (30 and 1).  A non-array or empty payload yields a soft
no-results message; a non-empty payload is rendered with a page suffix
exactly when its length equals per_page; a caught request error containing
404 yields a soft message, any other caught error is rethrown. -/
def Mcp.list_sub_issues (owner repo : String) (issue_number per_page page : Int)
    (outcome : FetchOutcome (List SubIssueItem)) : ToolResult :=
  Mcp.wrapTool (match Mcp.makeGitHubRequest outcome with
    | .ok content =>
        if content = [] then
          .ok { text := "No sub-issues found for issue #" ++ toString issue_number
                          ++ " in " ++ owner ++ "/" ++ repo ++ "."
                isError := false }
        else
          let subIssuesList := joinLines (content.map Mcp.subIssueLine)
          let totalText :=
            if (content.length : Int) = per_page then
              " (showing page " ++ toString page ++ ")"
            else ""
          .ok { text := "Sub-issues for #" ++ toString issue_number ++ " in " ++ owner
                          ++ "/" ++ repo ++ totalText ++ ":\n\n" ++ subIssuesList
                isError := false }
    | .error msg =>
        if hasSubstr msg "404" then
          .ok { text := "Issue #" ++ toString issue_number ++ " in " ++ owner ++ "/" ++ repo
                          ++ " does not exist or has no sub-issues."
                isError := false }
        else .error msg)

/-- get_id_of_issue (layout.tsx lines 212-253, identical in route.ts lines
241-277). -/
def Mcp.get_id_of_issue (owner repo : String) (issue_number : Int)
    (outcome : FetchOutcome IssueIdPayload) : ToolResult :=
  Mcp.wrapTool (match Mcp.makeGitHubRequest outcome with
    | .ok content =>
        .ok { text := "Issue #" ++ toString issue_number ++ " in " ++ owner ++ "/" ++ repo
                        ++ " has ID: " ++ toString content.id
              isError := false }
    | .error msg =>
        if hasSubstr msg "404" then
          .ok { text := "Issue #" ++ toString issue_number ++ " not found in "
                          ++ owner ++ "/" ++ repo ++ "."
                isError := false }
        else .error msg)

/- ========================================================================
   add_sub_issues, the batch handler (layout.tsx lines 255-364).  It builds
   one POST request per identifier with its own inline fetch (not
   makeGitHubRequest), always attaching an Authorization header built by a
   template literal from the resolved token.
   ======================================================================== -/

/-- Outcome of one batch POST, as observed inside the loop: an ok response
whose JSON body parses, a non-ok response with status, status text and body
text, or an exception (fetch rejection, or a parse failure of the body). -/
inductive PostOutcome where
  | ok
  | httpError (status : Nat) (statusText : String) (body : String)
  | thrown (message : String)
deriving DecidableEq

/-- The JSON body of one batch POST: sub_issue_id always, replace_parent
present only when the flag is true (object spread over a short-circuited
conjunction). -/
structure SubIssuePostBody where
  sub_issue_id : Int
  replace_parent : Option Bool
deriving DecidableEq

/-- Headers of every batch POST (layout.tsx lines 313-318): unlike
makeGitHubRequest, the Authorization header is attached unconditionally, so
an absent token renders through the template literal as token undefined. -/
def Mcp.addSubIssuesHeaders (token : Option String) : RequestHeaders :=
  { userAgent := USER_AGENT
    accept := ACCEPT_HEADER
    authorization := some ("token " ++ jsTemplateOpt token)
    contentType := some "application/json" }

/-- One batch POST request as issued (layout.tsx lines 304-321). -/
structure PostRequest where
  url : String
  headers : RequestHeaders
  body : SubIssuePostBody
deriving DecidableEq

def Mcp.addSubIssueRequest (token : Option String) (owner repo : String)
    (issue_number sub_issue_id : Int) (replace_parent : Bool) : PostRequest :=
  { url := GITHUB_API_BASE ++ "/repos/" ++ owner ++ "/" ++ repo ++ "/issues/"
             ++ toString issue_number ++ "/sub_issues"
    headers := Mcp.addSubIssuesHeaders token
    body := { sub_issue_id := sub_issue_id
              replace_parent := if replace_parent then some true else none } }

/-- The failure reason recorded for one identifier, exactly as the loop
renders it after the identifier prefix (layout.tsx lines 323-338). -/
def postFailureReason : PostOutcome → String
  | .ok => ""
  | .httpError st stText body => toString st ++ " " ++ stText ++ " - " ++ body
  | .thrown m => m

/-- The fan-out loop of add_sub_issues (layout.tsx lines 302-339): one POST
per identifier in input order; each iteration issues its request before
inspecting the outcome and appends exactly one entry to the success list or
the error list, never aborting the remaining identifiers.  Returns
(successes, errors, requests issued). -/
def Mcp.addSubIssuesLoop (token : Option String) (owner repo : String)
    (issue_number : Int) (replace_parent : Bool) (oracle : Int → PostOutcome) :
    List Int → List String × List String × List PostRequest
  | [] => ([], [], [])
  | id :: rest =>
    let acc := Mcp.addSubIssuesLoop token owner repo issue_number replace_parent oracle rest
    let rq := Mcp.addSubIssueRequest token owner repo issue_number id replace_parent
    match oracle id with
    | .ok =>
        (("✓ Successfully added sub-issue ID " ++ toString id ++ " to issue #"
            ++ toString issue_number) :: acc.1, acc.2.1, rq :: acc.2.2)
    | .httpError st stText body =>
        (acc.1,
         ("Sub-issue ID " ++ toString id ++ ": " ++ toString st ++ " " ++ stText
            ++ " - " ++ body) :: acc.2.1, rq :: acc.2.2)
    | .thrown m =>
        (acc.1, ("Sub-issue ID " ++ toString id ++ ": " ++ m) :: acc.2.1, rq :: acc.2.2)

/-- add_sub_issues (layout.tsx lines 279-363): an empty identifier list
returns immediately with a soft message and no POST; otherwise the loop runs
to completion and the summary always comes back with isError false,
reporting successCount/totalCount and listing every success and failure.
Returns the result together with the POST requests issued. -/
def Mcp.add_sub_issues (token : Option String) (owner repo : String) (issue_number : Int)
    (sub_issue_ids : List Int) (replace_parent : Bool) (oracle : Int → PostOutcome) :
    ToolResult × List PostRequest :=
  if sub_issue_ids = [] then
    ({ text := "Error: No sub-issue IDs provided. Please provide at least one sub-issue ID."
       isError := false }, [])
  else
    let acc := Mcp.addSubIssuesLoop token owner repo issue_number replace_parent oracle
                 sub_issue_ids
    let results := acc.1
    let errors := acc.2.1
    let summaryText :=
      "Batch operation completed: " ++ toString results.length ++ "/"
        ++ toString sub_issue_ids.length ++ " sub-issues added successfully to issue #"
        ++ toString issue_number ++ " in " ++ owner ++ "/" ++ repo
        ++ (if results = [] then "" else "\n\nSuccessful additions:\n" ++ joinLines results)
        ++ (if errors = [] then "" else "\n\nErrors encountered:\n" ++ joinLines errors)
    ({ text := summaryText, isError := false }, acc.2.2)

/- ========================================================================
   The streamable-HTTP variant (src/src/index.ts).  Its makeGitHubRequest
   never throws: it returns a tagged record, and every handler renders the
   error field (when present) into a result WITHOUT setting isError.
   ======================================================================== -/

/-- The data-or-error record of the index.ts makeGitHubRequest. -/
inductive ApiResult (α : Type) where
  | ok (data : α)
  | err (message : String)

/-- index.ts makeGitHubRequest (lines 22-59): a non-ok response reads the
body text and produces the error string with status, status text and body; a
transport failure produces a Network error string; nothing is thrown. -/
def IndexTs.makeGitHubRequest {α : Type} (outcome : FetchOutcome α) : ApiResult α :=
  match outcome with
  | .ok a => .ok a
  | .httpError st stText body =>
      .err ("GitHub API error: " ++ toString st ++ " " ++ stText ++ " - " ++ body)
  | .networkError m => .err ("Network error: " ++ m)

/-- index.ts credential extraction (lines 136-143): the standard
authorization header with a Bearer or token prefix; anything else, or no
header, yields no credential.  The process-wide fallback is never consulted
in this variant. -/
def IndexTs.tokenFromAuthorizationHeader (header : Option String) : Option String :=
  match header with
  | some s =>
      if strStartsWith s "Bearer " then some (s.drop 7)
      else if strStartsWith s "token " then some (s.drop 6)
      else none
  | none => none

/-- Authorization header attached to index.ts outbound calls.  The
envFallback argument records the process-wide fallback configured in the
environment; index.ts never reads it, which the theorems below expose. -/
def IndexTs.outboundAuthorization (authHeader envFallback : Option String) : Option String :=
  ghAuthorization (IndexTs.tokenFromAuthorizationHeader authHeader)

/-- Headers built by the index.ts makeGitHubRequest (lines 29-37). -/
def IndexTs.requestHeaders (githubToken : Option String) : RequestHeaders :=
  { userAgent := USER_AGENT
    accept := ACCEPT_HEADER
    authorization := ghAuthorization githubToken
    contentType := none }

/-- Locale-dependent date presentation (new Date(x).toLocaleDateString()),
modelled as the raw string: the exact rendering is environment-dependent
presentation only and no claim depends on it. -/
def jsToLocaleDateString (iso : String) : String := iso

/-- Locale-dependent number presentation (n.toLocaleString()), modelled as
plain digits for the same reason. -/
def jsToLocaleString (n : Int) : String := toString n

/- Payload shapes specific to the index.ts renderers. -/

structure RepositoryInfoIx where
  full_name : String
  description : Option String
  stargazers_count : Int
  forks_count : Int
  watchers_count : Int
  size : Int
  open_issues_count : Int
  language : Option String
  license_name : Option String
  created_at : String
  updated_at : String
  default_branch : String
  isPrivate : Bool
  fork : Bool
  html_url : String
  clone_url : String
  homepage : Option String
deriving DecidableEq

structure IssueItemIx where
  number : Int
  title : String
  state : String
  user_login : String
  created_at : String
  labels : List String
  html_url : String
  body : Option String
deriving DecidableEq

structure PullRequestIx where
  number : Int
  title : String
  state : String
  merged : Bool
  user_login : String
  created_at : String
  merged_at : Option String
  head_ref : String
  base_ref : String
  commits : Int
  changed_files : Int
  additions : Int
  deletions : Int
  labels : List String
  body : Option String
  html_url : String
  diff_url : String
  patch_url : String
deriving DecidableEq

structure SearchRepoItemIx where
  full_name : String
  description : Option String
  language : Option String
  stargazers_count : Int
  forks_count : Int
  updated_at : String
  html_url : String
deriving DecidableEq

structure SearchResultsIx where
  total_count : Int
  items : List SearchRepoItemIx
deriving DecidableEq

structure UserInfoIx where
  login : String
  name : Option String
  type : String
  bio : Option String
  company : Option String
  location : Option String
  email : Option String
  blog : Option String
  public_repos : Int
  followers : Int
  following : Int
  public_gists : Option Int
  created_at : String
  updated_at : String
  html_url : String
deriving DecidableEq

/- index.ts endpoint construction. -/

def IndexTs.getRepositoryInfoEndpoint (owner repo : String) : String :=
  "/repos/" ++ owner ++ "/" ++ repo

/-- index.ts list_repository_issues endpoint (line 190); limit is the
zod-defaulted value (default 10). -/
def IndexTs.listRepositoryIssuesEndpoint (owner repo state : String) (limit : Int) : String :=
  "/repos/" ++ owner ++ "/" ++ repo ++ "/issues?state=" ++ state
    ++ "&per_page=" ++ toString limit

def IndexTs.getPullRequestEndpoint (owner repo : String) (pull_number : Int) : String :=
  "/repos/" ++ owner ++ "/" ++ repo ++ "/pulls/" ++ toString pull_number

/-- index.ts search_repositories endpoint (line 262): this variant's zod
schema defaults sort to stars and limit to 10, and the endpoint has no order
parameter at all. -/
def IndexTs.searchRepositoriesEndpoint (query : String) (sort : Option String)
    (limit : Option Int) : String :=
  let sortV := sort.getD "stars"
  let limitV := limit.getD 10
  "/search/repositories?q=" ++ encodeURIComponent query ++ "&sort=" ++ sortV
    ++ "&per_page=" ++ toString limitV

def IndexTs.getUserInfoEndpoint (username : String) : String :=
  "/users/" ++ username

/- index.ts renderers. -/

def IndexTs.renderRepositoryInfo (r : RepositoryInfoIx) : String :=
  "# " ++ r.full_name
    ++ "\n\n**Description:** " ++ jsOrStr r.description "No description available"
    ++ "\n\n**Statistics:**\n- ⭐ Stars: " ++ jsToLocaleString r.stargazers_count
    ++ "\n- 🍴 Forks: " ++ jsToLocaleString r.forks_count
    ++ "\n- 👀 Watchers: " ++ jsToLocaleString r.watchers_count
    ++ "\n- 📂 Size: " ++ toString r.size ++ " KB"
    ++ "\n- 🐛 Open Issues: " ++ toString r.open_issues_count
    ++ "\n\n**Details:**\n- Language: " ++ jsOrStr r.language "Not specified"
    ++ "\n- License: " ++ jsOrStr r.license_name "No license"
    ++ "\n- Created: " ++ jsToLocaleDateString r.created_at
    ++ "\n- Updated: " ++ jsToLocaleDateString r.updated_at
    ++ "\n- Default Branch: " ++ r.default_branch
    ++ "\n- Private: " ++ (if r.isPrivate then "Yes" else "No")
    ++ "\n- Fork: " ++ (if r.fork then "Yes" else "No")
    ++ "\n\n**URLs:**\n- Repository: " ++ r.html_url
    ++ "\n- Clone URL: " ++ r.clone_url
    ++ "\n" ++ jsCond r.homepage (fun h => "- Homepage: " ++ h)

def IndexTs.issueBlock (issue : IssueItemIx) : String :=
  "## #" ++ toString issue.number ++ ": " ++ issue.title
    ++ "\n- **State:** " ++ issue.state
    ++ "\n- **Author:** " ++ issue.user_login
    ++ "\n- **Created:** " ++ jsToLocaleDateString issue.created_at
    ++ "\n- **Labels:** " ++ jsOrEmpty (joinSep ", " issue.labels) "None"
    ++ "\n- **URL:** " ++ issue.html_url
    ++ "\n" ++ jsCond issue.body (fun b =>
        "- **Description:** " ++ String.mk (b.data.take 200)
          ++ (if 200 < b.data.length then "..." else ""))
    ++ "\n"

def IndexTs.renderPullRequest (pr : PullRequestIx) : String :=
  "# Pull Request #" ++ toString pr.number ++ ": " ++ pr.title
    ++ "\n\n**Status:** " ++ pr.state ++ " " ++ (if pr.merged then "(Merged)" else "")
    ++ "\n**Author:** " ++ pr.user_login
    ++ "\n**Created:** " ++ jsToLocaleDateString pr.created_at
    ++ "\n" ++ jsCond pr.merged_at (fun m => "**Merged:** " ++ jsToLocaleDateString m)
    ++ "\n\n**Branch:** " ++ pr.head_ref ++ " → " ++ pr.base_ref
    ++ "\n**Commits:** " ++ toString pr.commits
    ++ "\n**Files Changed:** " ++ toString pr.changed_files
    ++ "\n**Additions:** +" ++ toString pr.additions
    ++ "\n**Deletions:** -" ++ toString pr.deletions
    ++ "\n\n**Labels:** " ++ jsOrEmpty (joinSep ", " pr.labels) "None"
    ++ "\n\n**Description:**\n" ++ jsOrStr pr.body "No description provided"
    ++ "\n\n**URLs:**\n- Pull Request: " ++ pr.html_url
    ++ "\n- Diff: " ++ pr.diff_url
    ++ "\n- Patch: " ++ pr.patch_url

def IndexTs.searchRepoBlock (r : SearchRepoItemIx) : String :=
  "## " ++ r.full_name
    ++ "\n- **Description:** " ++ jsOrStr r.description "No description"
    ++ "\n- **Language:** " ++ jsOrStr r.language "Not specified"
    ++ "\n- **Stars:** ⭐ " ++ jsToLocaleString r.stargazers_count
    ++ "\n- **Forks:** 🍴 " ++ jsToLocaleString r.forks_count
    ++ "\n- **Updated:** " ++ jsToLocaleDateString r.updated_at
    ++ "\n- **URL:** " ++ r.html_url
    ++ "\n"

def IndexTs.renderUserInfo (u : UserInfoIx) : String :=
  "# " ++ u.login ++ " " ++ jsCond u.name (fun nm => "(" ++ nm ++ ")")
    ++ "\n\n**Type:** " ++ u.type
    ++ "\n" ++ jsCond u.bio (fun b => "**Bio:** " ++ b)
    ++ "\n" ++ jsCond u.company (fun c => "**Company:** " ++ c)
    ++ "\n" ++ jsCond u.location (fun l => "**Location:** " ++ l)
    ++ "\n" ++ jsCond u.email (fun e => "**Email:** " ++ e)
    ++ "\n" ++ jsCond u.blog (fun b => "**Website:** " ++ b)
    ++ "\n\n**Statistics:**\n- 📚 Public Repositories: " ++ toString u.public_repos
    ++ "\n- 👥 Followers: " ++ jsToLocaleString u.followers
    ++ "\n- 👤 Following: " ++ jsToLocaleString u.following
    ++ "\n" ++ (match u.public_gists with
        | some g => "- 📝 Public Gists: " ++ toString g
        | none => "")
    ++ "\n\n**Account:**\n- Created: " ++ jsToLocaleDateString u.created_at
    ++ "\n- Updated: " ++ jsToLocaleDateString u.updated_at
    ++ "\n- Profile: " ++ u.html_url

/- index.ts tool handlers (lines 147-329).  Each returns the rendered error
text WITHOUT setting isError when the request failed. -/

/-- index.ts get_repository_info (lines 147-186). -/
def IndexTs.get_repository_info (outcome : FetchOutcome RepositoryInfoIx) : ToolResult :=
  match IndexTs.makeGitHubRequest outcome with
  | .err e => { text := "Error: " ++ e, isError := false }
  | .ok d => { text := IndexTs.renderRepositoryInfo d, isError := false }

/-- index.ts list_repository_issues (lines 188-219): an empty (or non-array)
payload yields the informational no-results message. -/
def IndexTs.list_repository_issues (owner repo state : String)
    (outcome : FetchOutcome (List IssueItemIx)) : ToolResult :=
  match IndexTs.makeGitHubRequest outcome with
  | .err e => { text := "Error: " ++ e, isError := false }
  | .ok issues =>
      if issues = [] then
        { text := "No " ++ state ++ " issues found in " ++ owner ++ "/" ++ repo
          isError := false }
      else
        { text := "# Issues in " ++ owner ++ "/" ++ repo ++ " (" ++ state ++ ")\n\n"
                    ++ joinSep "\n" (issues.map IndexTs.issueBlock)
          isError := false }

/-- index.ts get_pull_request (lines 221-258). -/
def IndexTs.get_pull_request (outcome : FetchOutcome PullRequestIx) : ToolResult :=
  match IndexTs.makeGitHubRequest outcome with
  | .err e => { text := "Error: " ++ e, isError := false }
  | .ok pr => { text := IndexTs.renderPullRequest pr, isError := false }

/-- index.ts search_repositories (lines 260-293). -/
def IndexTs.search_repositories (query : String)
    (outcome : FetchOutcome SearchResultsIx) : ToolResult :=
  match IndexTs.makeGitHubRequest outcome with
  | .err e => { text := "Error: " ++ e, isError := false }
  | .ok d =>
      if d.items = [] then
        { text := "No repositories found for query: \"" ++ query ++ "\"", isError := false }
      else
        { text := "# Search Results for \"" ++ query ++ "\" ("
                    ++ jsToLocaleString d.total_count ++ " total)\n\n"
                    ++ joinSep "\n" (d.items.map IndexTs.searchRepoBlock)
          isError := false }

/-- index.ts get_user_info (lines 295-329). -/
def IndexTs.get_user_info (outcome : FetchOutcome UserInfoIx) : ToolResult :=
  match IndexTs.makeGitHubRequest outcome with
  | .err e => { text := "Error: " ++ e, isError := false }
  | .ok u => { text := IndexTs.renderUserInfo u, isError := false }

/- ========================================================================
   Classification lemmas for the thrown request-error message: the three
   not-found-aware handlers decide softness by searching the message for the
   three characters 404.
   ======================================================================== -/

theorem str_append_empty (s : String) : s ++ "" = s := by
  cases s with
  | mk l => exact congrArg String.mk (List.append_nil l)

/-- A 404 response always renders its status into the thrown message, so the
includes check fires regardless of the status text. -/
theorem ghMsg_has404 (stText : String) :
    hasSubstr ("GitHub API error: " ++ toString (404 : Nat) ++ " " ++ stText) "404" = true := by
  have h : toString (404 : Nat) = "404" := by decide
  rw [h]
  apply hasSubstr_append_left
  apply hasSubstr_append_left
  apply hasSubstr_append_right
  exact hasSubstr_self _

/-- When neither the rendered status number nor the status text contains the
three characters 404, the thrown message does not either (the two spaces of
the fixed message frame cannot be part of an occurrence). -/
theorem ghMsg_no404 (st : Nat) (stText : String)
    (hst : hasSubstr (toString st) "404" = false)
    (htxt : hasSubstr stText "404" = false) :
    hasSubstr ("GitHub API error: " ++ toString st ++ " " ++ stText) "404" = false := by
  unfold hasSubstr at hst htxt ⊢
  have h1 : "GitHub API error: ".data = "GitHub API error:".data ++ [' '] := by decide
  have hd : ("GitHub API error: " ++ toString st ++ " " ++ stText).data
      = "GitHub API error:".data ++ (' ' :: ((toString st).data ++ (' ' :: stText.data))) := by
    rw [data_append, data_append, data_append, h1]
    have h2 : " ".data = [' '] := by decide
    rw [h2]
    simp [List.append_assoc]
  rw [hd]
  exact lcontains_sep_split_false "404".data ' ' "GitHub API error:".data
    ((toString st).data ++ (' ' :: stText.data)) (by decide) (by decide) (by decide)
    (lcontains_sep_split_false "404".data ' ' (toString st).data stText.data
      (by decide) (by decide) hst htxt)

/- Error-path behavior of the three not-found-aware handlers on a non-404
failure whose rendered status and status text avoid the sniffed substring:
the error is rethrown and the RPC layer surfaces it. -/

theorem mcpGetParent_httpError (owner repo : String) (n : Int) (st : Nat)
    (stText body : String)
    (hst : hasSubstr (toString st) "404" = false)
    (htxt : hasSubstr stText "404" = false) :
    Mcp.get_parent_of_sub_issue owner repo n (.httpError st stText body)
      = { text := "GitHub API error: " ++ toString st ++ " " ++ stText, isError := true } := by
  have h := ghMsg_no404 st stText hst htxt
  simp [Mcp.get_parent_of_sub_issue, Mcp.makeGitHubRequest, Mcp.wrapTool, h]

theorem mcpListSubIssues_httpError (owner repo : String) (n per page : Int) (st : Nat)
    (stText body : String)
    (hst : hasSubstr (toString st) "404" = false)
    (htxt : hasSubstr stText "404" = false) :
    Mcp.list_sub_issues owner repo n per page (.httpError st stText body)
      = { text := "GitHub API error: " ++ toString st ++ " " ++ stText, isError := true } := by
  have h := ghMsg_no404 st stText hst htxt
  simp [Mcp.list_sub_issues, Mcp.makeGitHubRequest, Mcp.wrapTool, h]

theorem mcpGetIdOfIssue_httpError (owner repo : String) (n : Int) (st : Nat)
    (stText body : String)
    (hst : hasSubstr (toString st) "404" = false)
    (htxt : hasSubstr stText "404" = false) :
    Mcp.get_id_of_issue owner repo n (.httpError st stText body)
      = { text := "GitHub API error: " ++ toString st ++ " " ++ stText, isError := true } := by
  have h := ghMsg_no404 st stText hst htxt
  simp [Mcp.get_id_of_issue, Mcp.makeGitHubRequest, Mcp.wrapTool, h]

/- Soft-path behavior of the same three handlers on a 404 failure. -/

theorem mcpGetParent_404 (owner repo : String) (n : Int) (stText body : String) :
    Mcp.get_parent_of_sub_issue owner repo n (.httpError 404 stText body)
      = { text := "Issue #" ++ toString n ++ " in " ++ owner ++ "/" ++ repo
                    ++ " does not have a parent issue or does not exist."
          isError := false } := by
  have h := ghMsg_has404 stText
  simp [Mcp.get_parent_of_sub_issue, Mcp.makeGitHubRequest, Mcp.wrapTool, h]

theorem mcpListSubIssues_404 (owner repo : String) (n per page : Int) (stText body : String) :
    Mcp.list_sub_issues owner repo n per page (.httpError 404 stText body)
      = { text := "Issue #" ++ toString n ++ " in " ++ owner ++ "/" ++ repo
                    ++ " does not exist or has no sub-issues."
          isError := false } := by
  have h := ghMsg_has404 stText
  simp [Mcp.list_sub_issues, Mcp.makeGitHubRequest, Mcp.wrapTool, h]

theorem mcpGetIdOfIssue_404 (owner repo : String) (n : Int) (stText body : String) :
    Mcp.get_id_of_issue owner repo n (.httpError 404 stText body)
      = { text := "Issue #" ++ toString n ++ " not found in " ++ owner ++ "/" ++ repo ++ "."
          isError := false } := by
  have h := ghMsg_has404 stText
  simp [Mcp.get_id_of_issue, Mcp.makeGitHubRequest, Mcp.wrapTool, h]

/- ========================================================================
   Claim theorems.
   ======================================================================== -/

/-- C1 counterexample: the not-found classification searches the rendered
error text for the characters 404, so a 500 response whose status text
happens to contain 404 is misclassified as the soft not-found case and comes
back with isError false, although the claim requires isError true for every
non-404 failure. -/
theorem c1_counterexample :
    (Mcp.get_id_of_issue "octocat" "hello" 7
        (FetchOutcome.httpError 500 "Bad 404 emulation" "")).isError = false
    ∧ (500 : Nat) ≠ 404 := by
  exact ⟨by decide, by decide⟩

/-- C1 (amended): for get_parent_of_sub_issue, list_sub_issues and
get_id_of_issue, a 404 failure always yields isError false with a message
naming the owner, repo and issue_number; a non-2xx, non-404 failure yields
isError true with the status preserved in the text, provided the rendered
status number and the status text do not themselves contain the character
sequence 404 (the handlers classify by substring search on the rendered
message). -/
theorem c1_amended (owner repo : String) (n per page : Int) (st : Nat)
    (stText body stTextOk bodyOk : String)
    (hst : hasSubstr (toString st) "404" = false)
    (htxt : hasSubstr stText "404" = false)
    (h2xx : ¬ (200 ≤ st ∧ st < 300)) :
    (Mcp.get_parent_of_sub_issue owner repo n (.httpError st stText body)
        = { text := "GitHub API error: " ++ toString st ++ " " ++ stText, isError := true })
    ∧ (Mcp.list_sub_issues owner repo n per page (.httpError st stText body)
        = { text := "GitHub API error: " ++ toString st ++ " " ++ stText, isError := true })
    ∧ (Mcp.get_id_of_issue owner repo n (.httpError st stText body)
        = { text := "GitHub API error: " ++ toString st ++ " " ++ stText, isError := true })
    ∧ ((Mcp.get_parent_of_sub_issue owner repo n (.httpError 404 stTextOk bodyOk)).isError
        = false)
    ∧ (hasSubstr (Mcp.get_parent_of_sub_issue owner repo n
          (.httpError 404 stTextOk bodyOk)).text owner = true)
    ∧ (hasSubstr (Mcp.get_parent_of_sub_issue owner repo n
          (.httpError 404 stTextOk bodyOk)).text repo = true)
    ∧ (hasSubstr (Mcp.get_parent_of_sub_issue owner repo n
          (.httpError 404 stTextOk bodyOk)).text (toString n) = true)
    ∧ ((Mcp.list_sub_issues owner repo n per page (.httpError 404 stTextOk bodyOk)).isError
        = false)
    ∧ (hasSubstr (Mcp.list_sub_issues owner repo n per page
          (.httpError 404 stTextOk bodyOk)).text owner = true)
    ∧ (hasSubstr (Mcp.list_sub_issues owner repo n per page
          (.httpError 404 stTextOk bodyOk)).text repo = true)
    ∧ (hasSubstr (Mcp.list_sub_issues owner repo n per page
          (.httpError 404 stTextOk bodyOk)).text (toString n) = true)
    ∧ ((Mcp.get_id_of_issue owner repo n (.httpError 404 stTextOk bodyOk)).isError = false)
    ∧ (hasSubstr (Mcp.get_id_of_issue owner repo n
          (.httpError 404 stTextOk bodyOk)).text owner = true)
    ∧ (hasSubstr (Mcp.get_id_of_issue owner repo n
          (.httpError 404 stTextOk bodyOk)).text repo = true)
    ∧ (hasSubstr (Mcp.get_id_of_issue owner repo n
          (.httpError 404 stTextOk bodyOk)).text (toString n) = true) := by
  have e1 := mcpGetParent_404 owner repo n stTextOk bodyOk
  have e2 := mcpListSubIssues_404 owner repo n per page stTextOk bodyOk
  have e3 := mcpGetIdOfIssue_404 owner repo n stTextOk bodyOk
  refine ⟨mcpGetParent_httpError owner repo n st stText body hst htxt,
    mcpListSubIssues_httpError owner repo n per page st stText body hst htxt,
    mcpGetIdOfIssue_httpError owner repo n st stText body hst htxt,
    ?_, ?_, ?_, ?_, ?_, ?_, ?_, ?_, ?_, ?_, ?_, ?_⟩
  · rw [e1]
  · rw [e1]
    apply hasSubstr_append_left
    apply hasSubstr_append_left
    apply hasSubstr_append_left
    apply hasSubstr_append_right
    exact hasSubstr_self owner
  · rw [e1]
    apply hasSubstr_append_left
    apply hasSubstr_append_right
    exact hasSubstr_self repo
  · rw [e1]
    apply hasSubstr_append_left
    apply hasSubstr_append_left
    apply hasSubstr_append_left
    apply hasSubstr_append_left
    apply hasSubstr_append_left
    apply hasSubstr_append_right
    exact hasSubstr_self (toString n)
  · rw [e2]
  · rw [e2]
    apply hasSubstr_append_left
    apply hasSubstr_append_left
    apply hasSubstr_append_left
    apply hasSubstr_append_right
    exact hasSubstr_self owner
  · rw [e2]
    apply hasSubstr_append_left
    apply hasSubstr_append_right
    exact hasSubstr_self repo
  · rw [e2]
    apply hasSubstr_append_left
    apply hasSubstr_append_left
    apply hasSubstr_append_left
    apply hasSubstr_append_left
    apply hasSubstr_append_left
    apply hasSubstr_append_right
    exact hasSubstr_self (toString n)
  · rw [e3]
  · rw [e3]
    apply hasSubstr_append_left
    apply hasSubstr_append_left
    apply hasSubstr_append_left
    apply hasSubstr_append_right
    exact hasSubstr_self owner
  · rw [e3]
    apply hasSubstr_append_left
    apply hasSubstr_append_right
    exact hasSubstr_self repo
  · rw [e3]
    apply hasSubstr_append_left
    apply hasSubstr_append_left
    apply hasSubstr_append_left
    apply hasSubstr_append_left
    apply hasSubstr_append_left
    apply hasSubstr_append_right
    exact hasSubstr_self (toString n)

/-- C1 witness: the amended theorem applied at a 500 with a standard status
text. -/
theorem c1_amended_witness :
    hasSubstr (toString (500 : Nat)) "404" = false
    ∧ hasSubstr "Internal Server Error" "404" = false
    ∧ ¬ (200 ≤ (500 : Nat) ∧ (500 : Nat) < 300)
    ∧ Mcp.get_parent_of_sub_issue "octocat" "hello" 7
        (.httpError 500 "Internal Server Error" "oops")
      = { text := "GitHub API error: " ++ toString (500 : Nat) ++ " " ++ "Internal Server Error"
          isError := true } :=
  ⟨by decide, by decide, by decide,
    (c1_amended "octocat" "hello" 7 30 1 500 "Internal Server Error" "oops" "Not Found" ""
      (by decide) (by decide) (by decide)).1⟩

/-- C3 counterexample: the route.ts list_repository_issues has no empty-list
check, so an empty result renders the normal header followed by nothing -
not an informational no-results message (its text contains no occurrence of
the word No at all), though still with isError false. -/
theorem c3_counterexample :
    Mcp.list_repository_issues "octocat" "hello" "open" (FetchOutcome.ok [])
      = { text := "Issues for octocat/hello (open):\n\n", isError := false }
    ∧ hasSubstr (Mcp.list_repository_issues "octocat" "hello" "open"
        (FetchOutcome.ok [])).text "No" = false := by
  exact ⟨by decide, by decide⟩

/-- C3 (amended): list_sub_issues and the index.ts list_repository_issues
render an empty result list as an isError-false informational no-results
message; the route.ts list_repository_issues instead renders its normal
header with an empty body, also with isError false - an empty list is never
rendered as an error in any variant. -/
theorem c3_amended (owner repo state : String) (n per page : Int) :
    Mcp.list_sub_issues owner repo n per page (FetchOutcome.ok [])
      = { text := "No sub-issues found for issue #" ++ toString n ++ " in " ++ owner
                    ++ "/" ++ repo ++ "."
          isError := false }
    ∧ IndexTs.list_repository_issues owner repo state (FetchOutcome.ok [])
      = { text := "No " ++ state ++ " issues found in " ++ owner ++ "/" ++ repo
          isError := false }
    ∧ Mcp.list_repository_issues owner repo state (FetchOutcome.ok [])
      = { text := "Issues for " ++ owner ++ "/" ++ repo ++ " (" ++ state ++ "):\n\n"
          isError := false } := by
  refine ⟨?_, ?_, ?_⟩
  · simp [Mcp.list_sub_issues, Mcp.makeGitHubRequest, Mcp.wrapTool]
  · simp [IndexTs.list_repository_issues, IndexTs.makeGitHubRequest]
  · simp [Mcp.list_repository_issues, Mcp.makeGitHubRequest, Mcp.wrapTool,
      joinLines, joinSep, str_append_empty]

/-- C5 counterexample: the index.ts variant derives its credential only from
the request Authorization header; with no request credential and a
configured process-wide fallback it attaches no Authorization header, while
the claim requires the fallback to be used.  The second conjunct shows the
header the claim expected. -/
theorem c5_counterexample :
    IndexTs.outboundAuthorization none (some "fallback-token") = none
    ∧ ghAuthorization (some "fallback-token") = some ("token " ++ "fallback-token") := by
  exact ⟨rfl, by decide⟩

/-- C5 (amended): in the createMcpHandler variants the credential precedence
is as claimed - a present non-empty request token wins, an absent or empty
one falls back to the configured process-wide value, and with neither no
credential is attached; the index.ts variant never consults the fallback. -/
theorem c5_amended (s fb : String) (env : Option String) (hs : s ≠ "") (hfb : fb ≠ "") :
    Mcp.outboundAuthorization (some s) env = some ("token " ++ s)
    ∧ Mcp.outboundAuthorization none (some fb) = some ("token " ++ fb)
    ∧ Mcp.outboundAuthorization (some "") (some fb) = some ("token " ++ fb)
    ∧ Mcp.outboundAuthorization none none = none
    ∧ IndexTs.outboundAuthorization none (some fb) = none := by
  refine ⟨?_, ?_, ?_, rfl, rfl⟩
  · simp [Mcp.outboundAuthorization, Mcp.tokenForRequest, Mcp.headerToken, jsOrOpt,
      ghAuthorization, hs]
  · simp [Mcp.outboundAuthorization, Mcp.tokenForRequest, Mcp.headerToken, jsOrOpt,
      ghAuthorization, hfb]
  · simp [Mcp.outboundAuthorization, Mcp.tokenForRequest, Mcp.headerToken, jsOrOpt,
      ghAuthorization, hfb]

/-- C5 witness: with both a request token and a fallback configured, the
request-scoped value is the one attached. -/
theorem c5_witness :
    ("request-token" : String) ≠ ""
    ∧ ("fallback" : String) ≠ ""
    ∧ Mcp.outboundAuthorization (some "request-token") (some "fallback")
        = some ("token " ++ "request-token") :=
  ⟨by decide, by decide,
    (c5_amended "request-token" "fallback" (some "fallback") (by decide) (by decide)).1⟩

/-- C6: the fixed user-agent and versioned accept header are always present,
and makeGitHubRequest attaches an Authorization header exactly for a truthy
credential - but every add_sub_issues POST attaches one unconditionally, so
with no resolved credential it sends the literal text token undefined.  This
evaluates the batch request construction at that failing input. -/
theorem c6_token_undefined_bug :
    (Mcp.addSubIssueRequest none "octocat" "hello" 42 7 false).headers
      = { userAgent := USER_AGENT
          accept := ACCEPT_HEADER
          authorization := some "token undefined"
          contentType := some "application/json" }
    ∧ (Mcp.requestHeaders none).authorization = none
    ∧ (Mcp.requestHeaders (some "tok")).authorization = some ("token " ++ "tok") := by
  exact ⟨by decide, rfl, by decide⟩

/-- C7 counterexample: the index.ts search_repositories defaults sort to
stars and never emits an order parameter, so with query test and no
sort/order supplied its endpoint contains a sort= parameter and no
order=desc, contradicting the claim. -/
theorem c7_counterexample :
    hasSubstr (IndexTs.searchRepositoriesEndpoint "test" none none) "sort=" = true
    ∧ hasSubstr (IndexTs.searchRepositoriesEndpoint "test" none none) "order=" = false := by
  exact ⟨by decide, by decide⟩

/-- C7 (amended): with query test and neither sort nor order supplied, the
route.ts (and part_000) endpoint contains q=test and order=desc and no sort=
parameter; the index.ts endpoint instead contains q=test and sort=stars and
no order parameter. -/
theorem c7_amended :
    hasSubstr (Mcp.searchRepositoriesEndpoint "test" none none) "q=test" = true
    ∧ hasSubstr (Mcp.searchRepositoriesEndpoint "test" none none) "order=desc" = true
    ∧ hasSubstr (Mcp.searchRepositoriesEndpoint "test" none none) "sort=" = false
    ∧ hasSubstr (IndexTs.searchRepositoriesEndpoint "test" none none) "q=test" = true
    ∧ hasSubstr (IndexTs.searchRepositoriesEndpoint "test" none none) "sort=stars" = true
    ∧ hasSubstr (IndexTs.searchRepositoriesEndpoint "test" none none) "order=" = false := by
  exact ⟨by decide, by decide, by decide, by decide, by decide, by decide⟩

/-- C8: add_sub_issues with an empty identifier list returns immediately -
no POST is issued (the request trace is empty) - with a non-error result
whose text states that no identifiers were provided. -/
theorem c8_empty_batch (token : Option String) (owner repo : String) (n : Int) (rp : Bool)
    (oracle : Int → PostOutcome) :
    Mcp.add_sub_issues token owner repo n [] rp oracle
      = ({ text := "Error: No sub-issue IDs provided. Please provide at least one sub-issue ID."
           isError := false }, [])
    ∧ hasSubstr (Mcp.add_sub_issues token owner repo n [] rp oracle).1.text
        "No sub-issue IDs provided" = true := by
  have h : Mcp.add_sub_issues token owner repo n [] rp oracle
      = ({ text := "Error: No sub-issue IDs provided. Please provide at least one sub-issue ID."
           isError := false }, []) := by
    simp [Mcp.add_sub_issues]
  refine ⟨h, ?_⟩
  rw [h]
  decide

/-- Each loop iteration records exactly one entry in the success list or the
error list, so the two lengths always partition the input length. -/
theorem addSubIssuesLoop_partition (token : Option String) (owner repo : String)
    (issue_number : Int) (replace_parent : Bool) (oracle : Int → PostOutcome) :
    ∀ ids : List Int,
      (Mcp.addSubIssuesLoop token owner repo issue_number replace_parent oracle ids).1.length
        + (Mcp.addSubIssuesLoop token owner repo issue_number replace_parent oracle
            ids).2.1.length
        = ids.length := by
  intro ids
  induction ids with
  | nil => simp [Mcp.addSubIssuesLoop]
  | cons id rest ih =>
    cases h : oracle id <;>
      simp [Mcp.addSubIssuesLoop, h] <;> omega

/-- C4 counterexample: the index.ts handlers render a remote HTTP failure
(status and body included) into a result WITHOUT setting isError, so the
failure is not surfaced as isError true as the claim requires. -/
theorem c4_counterexample :
    IndexTs.get_repository_info (FetchOutcome.httpError 500 "Internal Server Error" "boom")
      = { text := "Error: GitHub API error: 500 Internal Server Error - boom"
          isError := false } := by
  decide

/-- C4 (amended): a non-2xx, non-404 remote response is surfaced per
variant as follows.  index.ts tools: isError stays false and the text
carries the status, status text and body verbatim.  The route.ts/layout.tsx
tools: the thrown message is surfaced as isError true with the status and
status text but without the body (for the three not-found-aware tools,
provided the rendered status and status text avoid the sniffed substring
404).  add_sub_issues: a failing POST never escalates - the batch result has
isError false with the status and body inside the per-item error line. -/
theorem c4_amended (owner repo state query : String) (n sid : Int) (per page : Int)
    (st : Nat) (stText body : String) (token : Option String) (rp : Bool)
    (oracle : Int → PostOutcome)
    (hst : hasSubstr (toString st) "404" = false)
    (htxt : hasSubstr stText "404" = false)
    (h2xx : ¬ (200 ≤ st ∧ st < 300))
    (horacle : oracle sid = .httpError st stText body) :
    (IndexTs.get_repository_info (.httpError st stText body)
      = { text := "Error: " ++ ("GitHub API error: " ++ toString st ++ " " ++ stText
                     ++ " - " ++ body)
          isError := false })
    ∧ (IndexTs.list_repository_issues owner repo state (.httpError st stText body)
      = { text := "Error: " ++ ("GitHub API error: " ++ toString st ++ " " ++ stText
                     ++ " - " ++ body)
          isError := false })
    ∧ (IndexTs.get_pull_request (.httpError st stText body)
      = { text := "Error: " ++ ("GitHub API error: " ++ toString st ++ " " ++ stText
                     ++ " - " ++ body)
          isError := false })
    ∧ (IndexTs.search_repositories query (.httpError st stText body)
      = { text := "Error: " ++ ("GitHub API error: " ++ toString st ++ " " ++ stText
                     ++ " - " ++ body)
          isError := false })
    ∧ (IndexTs.get_user_info (.httpError st stText body)
      = { text := "Error: " ++ ("GitHub API error: " ++ toString st ++ " " ++ stText
                     ++ " - " ++ body)
          isError := false })
    ∧ (hasSubstr (IndexTs.get_repository_info (.httpError st stText body)).text
        (toString st) = true)
    ∧ (hasSubstr (IndexTs.get_repository_info (.httpError st stText body)).text body = true)
    ∧ (Mcp.get_repository_info (.httpError st stText body)
      = { text := "GitHub API error: " ++ toString st ++ " " ++ stText, isError := true })
    ∧ (Mcp.list_repository_issues owner repo state (.httpError st stText body)
      = { text := "GitHub API error: " ++ toString st ++ " " ++ stText, isError := true })
    ∧ (Mcp.get_pull_request (.httpError st stText body)
      = { text := "GitHub API error: " ++ toString st ++ " " ++ stText, isError := true })
    ∧ (Mcp.search_repositories query (.httpError st stText body)
      = { text := "GitHub API error: " ++ toString st ++ " " ++ stText, isError := true })
    ∧ (Mcp.get_user_info (.httpError st stText body)
      = { text := "GitHub API error: " ++ toString st ++ " " ++ stText, isError := true })
    ∧ (Mcp.get_parent_of_sub_issue owner repo n (.httpError st stText body)
      = { text := "GitHub API error: " ++ toString st ++ " " ++ stText, isError := true })
    ∧ (Mcp.list_sub_issues owner repo n per page (.httpError st stText body)
      = { text := "GitHub API error: " ++ toString st ++ " " ++ stText, isError := true })
    ∧ (Mcp.get_id_of_issue owner repo n (.httpError st stText body)
      = { text := "GitHub API error: " ++ toString st ++ " " ++ stText, isError := true })
    ∧ ((Mcp.add_sub_issues token owner repo n [sid] rp oracle).1.isError = false)
    ∧ (hasSubstr (Mcp.add_sub_issues token owner repo n [sid] rp oracle).1.text
        (toString st) = true)
    ∧ (hasSubstr (Mcp.add_sub_issues token owner repo n [sid] rp oracle).1.text body
        = true) := by
  have hloop : Mcp.addSubIssuesLoop token owner repo n rp oracle [sid]
      = ([], ["Sub-issue ID " ++ toString sid ++ ": " ++ toString st ++ " " ++ stText
                ++ " - " ++ body], [Mcp.addSubIssueRequest token owner repo n sid rp]) := by
    simp [Mcp.addSubIssuesLoop, horacle]
  refine ⟨rfl, rfl, rfl, rfl, rfl, ?_, ?_, rfl, rfl, rfl, rfl, rfl,
    mcpGetParent_httpError owner repo n st stText body hst htxt,
    mcpListSubIssues_httpError owner repo n per page st stText body hst htxt,
    mcpGetIdOfIssue_httpError owner repo n st stText body hst htxt,
    ?_, ?_, ?_⟩
  · show hasSubstr ("Error: " ++ ("GitHub API error: " ++ toString st ++ " " ++ stText
        ++ " - " ++ body)) (toString st) = true
    apply hasSubstr_append_right
    apply hasSubstr_append_left
    apply hasSubstr_append_left
    apply hasSubstr_append_left
    apply hasSubstr_append_left
    apply hasSubstr_append_right
    exact hasSubstr_self _
  · show hasSubstr ("Error: " ++ ("GitHub API error: " ++ toString st ++ " " ++ stText
        ++ " - " ++ body)) body = true
    apply hasSubstr_append_right
    apply hasSubstr_append_right
    exact hasSubstr_self _
  · simp [Mcp.add_sub_issues]
  · simp [Mcp.add_sub_issues, hloop, joinLines, joinSep, str_append_empty]
    apply hasSubstr_append_right
    apply hasSubstr_append_right
    apply hasSubstr_append_left
    apply hasSubstr_append_left
    apply hasSubstr_append_left
    apply hasSubstr_append_left
    apply hasSubstr_append_right
    exact hasSubstr_self _
  · simp [Mcp.add_sub_issues, hloop, joinLines, joinSep, str_append_empty]
    apply hasSubstr_append_right
    apply hasSubstr_append_right
    apply hasSubstr_append_right
    exact hasSubstr_self _

/-- C4 witness: the amended theorem applied at a 500 with body text boom. -/
theorem c4_amended_witness :
    hasSubstr (toString (500 : Nat)) "404" = false
    ∧ hasSubstr "Internal Server Error" "404" = false
    ∧ ¬ (200 ≤ (500 : Nat) ∧ (500 : Nat) < 300)
    ∧ ((fun i => if i = (4 : Int) then PostOutcome.httpError 500 "Internal Server Error" "boom"
          else PostOutcome.ok) (4 : Int)
        = PostOutcome.httpError 500 "Internal Server Error" "boom")
    ∧ IndexTs.get_repository_info (.httpError 500 "Internal Server Error" "boom")
      = { text := "Error: " ++ ("GitHub API error: " ++ toString (500 : Nat) ++ " "
                     ++ "Internal Server Error" ++ " - " ++ "boom")
          isError := false } :=
  ⟨by decide, by decide, by decide, by decide,
    (c4_amended "octocat" "hello" "open" "q" 7 4 30 1 500 "Internal Server Error" "boom"
      none false
      (fun i => if i = (4 : Int) then PostOutcome.httpError 500 "Internal Server Error" "boom"
        else PostOutcome.ok)
      (by decide) (by decide) (by decide) (by decide)).1⟩

theorem str_append_assoc (a b c : String) : (a ++ b) ++ c = a ++ (b ++ c) := by
  cases a
  cases b
  cases c
  exact congrArg String.mk (List.append_assoc _ _ _)

set_option maxHeartbeats 1600000 in
/-- C2: add_sub_issues on identifiers [1,2,3] where the POST for 2 fails and
those for 1 and 3 succeed: the result has isError false; the summary reads
exactly 2/3 in the success-count position; the text lists the successes for
1 and 3 and the failure reason recorded for 2; and exactly one POST is
issued per identifier, in input order [1,2,3] - the failure of 2 neither
aborts nor skips identifier 3. -/
theorem c2_batch_fanout (token : Option String) (owner repo : String) (n : Int) (rp : Bool)
    (oracle : Int → PostOutcome)
    (h1 : oracle 1 = .ok) (h2 : oracle 2 ≠ .ok) (h3 : oracle 3 = .ok) :
    ((Mcp.add_sub_issues token owner repo n [1, 2, 3] rp oracle).1.isError = false)
    ∧ (strStartsWith (Mcp.add_sub_issues token owner repo n [1, 2, 3] rp oracle).1.text
        ("Batch operation completed: " ++ toString (2 : Nat) ++ "/" ++ toString (3 : Nat)
          ++ " sub-issues added successfully to issue #" ++ toString n ++ " in "
          ++ owner ++ "/" ++ repo) = true)
    ∧ (hasSubstr (Mcp.add_sub_issues token owner repo n [1, 2, 3] rp oracle).1.text
        ("✓ Successfully added sub-issue ID " ++ toString (1 : Int) ++ " to issue #"
          ++ toString n) = true)
    ∧ (hasSubstr (Mcp.add_sub_issues token owner repo n [1, 2, 3] rp oracle).1.text
        ("✓ Successfully added sub-issue ID " ++ toString (3 : Int) ++ " to issue #"
          ++ toString n) = true)
    ∧ (hasSubstr (Mcp.add_sub_issues token owner repo n [1, 2, 3] rp oracle).1.text
        ("Sub-issue ID " ++ toString (2 : Int) ++ ": " ++ postFailureReason (oracle 2))
        = true)
    ∧ ((Mcp.add_sub_issues token owner repo n [1, 2, 3] rp oracle).2.map
        (fun rq => rq.body.sub_issue_id) = [1, 2, 3]) := by
  cases ho2 : oracle 2 with
  | ok => exact absurd ho2 h2
  | httpError st stt bd =>
    have hloop : Mcp.addSubIssuesLoop token owner repo n rp oracle [1, 2, 3]
        = (["✓ Successfully added sub-issue ID " ++ toString (1 : Int) ++ " to issue #"
              ++ toString n,
            "✓ Successfully added sub-issue ID " ++ toString (3 : Int) ++ " to issue #"
              ++ toString n],
           ["Sub-issue ID " ++ toString (2 : Int) ++ ": " ++ toString st ++ " " ++ stt
              ++ " - " ++ bd],
           [Mcp.addSubIssueRequest token owner repo n 1 rp,
            Mcp.addSubIssueRequest token owner repo n 2 rp,
            Mcp.addSubIssueRequest token owner repo n 3 rp]) := by
      simp [Mcp.addSubIssuesLoop, h1, h3, ho2]
    have hpat : ("Sub-issue ID " ++ toString (2 : Int) ++ ": "
          ++ (toString st ++ " " ++ stt ++ " - " ++ bd))
        = ("Sub-issue ID " ++ toString (2 : Int) ++ ": " ++ toString st ++ " " ++ stt
            ++ " - " ++ bd) := by
      simp [str_append_assoc]
    refine ⟨by simp [Mcp.add_sub_issues], ?_, ?_, ?_, ?_, ?_⟩
    · simp [Mcp.add_sub_issues, hloop, joinLines, joinSep]
      apply strStartsWith_extend
      apply strStartsWith_extend
      exact strStartsWith_self _
    · simp [Mcp.add_sub_issues, hloop, joinLines, joinSep]
      apply hasSubstr_append_left
      apply hasSubstr_append_right
      apply hasSubstr_append_right
      apply hasSubstr_append_left
      apply hasSubstr_append_left
      exact hasSubstr_self _
    · simp [Mcp.add_sub_issues, hloop, joinLines, joinSep]
      apply hasSubstr_append_left
      apply hasSubstr_append_right
      apply hasSubstr_append_right
      apply hasSubstr_append_right
      exact hasSubstr_self _
    · simp only [postFailureReason]
      rw [hpat]
      simp [Mcp.add_sub_issues, hloop, joinLines, joinSep]
      apply hasSubstr_append_right
      apply hasSubstr_append_right
      exact hasSubstr_self _
    · simp [Mcp.add_sub_issues, hloop, Mcp.addSubIssueRequest]
  | thrown m =>
    have hloop : Mcp.addSubIssuesLoop token owner repo n rp oracle [1, 2, 3]
        = (["✓ Successfully added sub-issue ID " ++ toString (1 : Int) ++ " to issue #"
              ++ toString n,
            "✓ Successfully added sub-issue ID " ++ toString (3 : Int) ++ " to issue #"
              ++ toString n],
           ["Sub-issue ID " ++ toString (2 : Int) ++ ": " ++ m],
           [Mcp.addSubIssueRequest token owner repo n 1 rp,
            Mcp.addSubIssueRequest token owner repo n 2 rp,
            Mcp.addSubIssueRequest token owner repo n 3 rp]) := by
      simp [Mcp.addSubIssuesLoop, h1, h3, ho2]
    refine ⟨by simp [Mcp.add_sub_issues], ?_, ?_, ?_, ?_, ?_⟩
    · simp [Mcp.add_sub_issues, hloop, joinLines, joinSep]
      apply strStartsWith_extend
      apply strStartsWith_extend
      exact strStartsWith_self _
    · simp [Mcp.add_sub_issues, hloop, joinLines, joinSep]
      apply hasSubstr_append_left
      apply hasSubstr_append_right
      apply hasSubstr_append_right
      apply hasSubstr_append_left
      apply hasSubstr_append_left
      exact hasSubstr_self _
    · simp [Mcp.add_sub_issues, hloop, joinLines, joinSep]
      apply hasSubstr_append_left
      apply hasSubstr_append_right
      apply hasSubstr_append_right
      apply hasSubstr_append_right
      exact hasSubstr_self _
    · simp only [postFailureReason]
      simp [Mcp.add_sub_issues, hloop, joinLines, joinSep]
      apply hasSubstr_append_right
      apply hasSubstr_append_right
      exact hasSubstr_self _
    · simp [Mcp.add_sub_issues, hloop, Mcp.addSubIssueRequest]

/-- C2 witness: the theorem applied at an oracle failing exactly on 2. -/
theorem c2_witness :
    ((fun i => if i = (2 : Int)
        then PostOutcome.httpError 500 "Internal Server Error" "boom"
        else PostOutcome.ok) (1 : Int) = PostOutcome.ok)
    ∧ ((fun i => if i = (2 : Int)
        then PostOutcome.httpError 500 "Internal Server Error" "boom"
        else PostOutcome.ok) (2 : Int) ≠ PostOutcome.ok)
    ∧ ((fun i => if i = (2 : Int)
        then PostOutcome.httpError 500 "Internal Server Error" "boom"
        else PostOutcome.ok) (3 : Int) = PostOutcome.ok)
    ∧ ((Mcp.add_sub_issues none "octocat" "hello" 9 [1, 2, 3] false
        (fun i => if i = (2 : Int)
          then PostOutcome.httpError 500 "Internal Server Error" "boom"
          else PostOutcome.ok)).1.isError = false) :=
  ⟨by decide, by decide, by decide,
    (c2_batch_fanout none "octocat" "hello" 9 false
      (fun i => if i = (2 : Int)
        then PostOutcome.httpError 500 "Internal Server Error" "boom"
        else PostOutcome.ok) (by decide) (by decide) (by decide)).1⟩

/-- C9: for every non-empty identifier list, the fan-out loop records each
identifier in exactly one of the success list or the error list (their
lengths partition the input length), and the summary text reports exactly
successCount/totalCount, with totalCount the input length, in the
success-count position. -/
theorem c9_partition (token : Option String) (owner repo : String) (n : Int) (rp : Bool)
    (oracle : Int → PostOutcome) (ids : List Int) (h : ids ≠ []) :
    ((Mcp.addSubIssuesLoop token owner repo n rp oracle ids).1.length
      + (Mcp.addSubIssuesLoop token owner repo n rp oracle ids).2.1.length = ids.length)
    ∧ (strStartsWith (Mcp.add_sub_issues token owner repo n ids rp oracle).1.text
        ("Batch operation completed: "
          ++ toString (Mcp.addSubIssuesLoop token owner repo n rp oracle ids).1.length
          ++ "/" ++ toString ids.length) = true) := by
  refine ⟨addSubIssuesLoop_partition token owner repo n rp oracle ids, ?_⟩
  simp only [Mcp.add_sub_issues, h, if_neg, ite_false]
  apply strStartsWith_extend
  apply strStartsWith_extend
  apply strStartsWith_extend
  apply strStartsWith_extend
  apply strStartsWith_extend
  apply strStartsWith_extend
  apply strStartsWith_extend
  apply strStartsWith_extend
  exact strStartsWith_self _

/-- C9 witness: the theorem applied to the list [1, 2] with every POST
succeeding. -/
theorem c9_witness :
    (([1, 2] : List Int) ≠ [])
    ∧ ((Mcp.addSubIssuesLoop none "octocat" "hello" 9 false (fun _ => PostOutcome.ok)
          [1, 2]).1.length
        + (Mcp.addSubIssuesLoop none "octocat" "hello" 9 false (fun _ => PostOutcome.ok)
            [1, 2]).2.1.length
        = ([1, 2] : List Int).length) :=
  ⟨by decide,
    (c9_partition none "octocat" "hello" 9 false (fun _ => PostOutcome.ok) [1, 2]
      (by decide)).1⟩

/-- C10: for a successful non-empty list_sub_issues response the result is
never an error, and the rendered header carries the suffix (showing page N),
with N the requested page, exactly when the number of returned items equals
the effective per_page value, and no page suffix otherwise. -/
theorem c10_page_suffix (owner repo : String) (n per page : Int)
    (issues : List SubIssueItem) (hne : issues ≠ []) :
    ((Mcp.list_sub_issues owner repo n per page (.ok issues)).isError = false)
    ∧ ((issues.length : Int) = per →
        Mcp.list_sub_issues owner repo n per page (.ok issues)
          = { text := "Sub-issues for #" ++ toString n ++ " in " ++ owner ++ "/" ++ repo
                        ++ (" (showing page " ++ toString page ++ ")") ++ ":\n\n"
                        ++ joinLines (issues.map Mcp.subIssueLine)
              isError := false })
    ∧ ((issues.length : Int) ≠ per →
        Mcp.list_sub_issues owner repo n per page (.ok issues)
          = { text := "Sub-issues for #" ++ toString n ++ " in " ++ owner ++ "/" ++ repo
                        ++ ":\n\n" ++ joinLines (issues.map Mcp.subIssueLine)
              isError := false }) := by
  refine ⟨?_, ?_, ?_⟩
  · by_cases hc : ((issues.length : Int) = per) <;>
      simp [Mcp.list_sub_issues, Mcp.makeGitHubRequest, Mcp.wrapTool, hne, hc]
  · intro hlen
    simp [Mcp.list_sub_issues, Mcp.makeGitHubRequest, Mcp.wrapTool, hne, hlen]
  · intro hlen
    simp [Mcp.list_sub_issues, Mcp.makeGitHubRequest, Mcp.wrapTool, hne, hlen,
      str_append_empty]

/-- C10 witness: one returned item with per_page 1 (page suffix fires) - the
theorem applied at that input. -/
theorem c10_witness :
    (([{ number := 1, title := "t", state := "open", html_url := "u" }] : List SubIssueItem)
      ≠ [])
    ∧ ((Mcp.list_sub_issues "octocat" "hello" 5 1 2
        (.ok [{ number := 1, title := "t", state := "open", html_url := "u" }])).isError
      = false) :=
  ⟨by decide,
    (c10_page_suffix "octocat" "hello" 5 1 2
      [{ number := 1, title := "t", state := "open", html_url := "u" }] (by decide)).1⟩
